import Mathlib

/-!
Shallow embedding of `src/serializer.py` (PydanticSerializers).

The source is a single class `Serializer` holding two field selectors
(`include_fields`, defaulting to the sentinel `ALL = ("__all__",)`, and
`exclude_fields`, defaulting to `EMPTY = tuple()`), with methods
`_check_fields` (validation), `_get_model` (schema construction via
pydantic `create_model`), `from_orm` (validate then build) and `add`
(build and attach as the `Serializer` attribute of the mapping class).

Modelling choices:
* selector iterables and the sentinel tuples become `List String`;
* a SQLAlchemy column becomes `Column` (name, `type.python_type` as a
  type-name string, optional default argument value);
* a mapping class becomes `MappingClass`: `__tablename__`, the ordered
  column list of `metadata.tables[__tablename__]`, the keys of
  `cls.__dict__`, and a slot for the `Serializer` attribute that
  `add` sets with `setattr`;
* the three `raise AttributeError(...)` sites become the constructors of
  `PyError`, and `PyError.msg` reproduces the exact message strings;
* the Python set `{*include_fields, *exclude_fields}` iterated by
  `_check_fields` is modelled as `(include_fields ++ exclude_fields).dedup`
  (set iteration order is unspecified in Python; this is one
  determinisation of it);
* the `fields` dict filled by `_get_model` is modelled as an ordered
  association list with Python dict assignment semantics (`dictInsert`),
  and `create_model("ModelSerializer", **fields)` becomes `Schema`.
-/

namespace PydanticSerializers

/-- A Python value, as used for the argument of a column default. -/
inductive PyValue where
  | intV : Int → PyValue
  | strV : String → PyValue
  | boolV : Bool → PyValue
  | noneV : PyValue
deriving DecidableEq

/-- A pydantic field default: the Python Ellipsis object `...`
(the required, no default marker) or a literal default value. -/
inductive FieldDefault where
  | ellipsis : FieldDefault
  | value : PyValue → FieldDefault
deriving DecidableEq

/-- A SQLAlchemy column descriptor: `column.name`,
`column.type.python_type` (as the name of that Python type), and
`column.default` (`none` when the column declares no default, otherwise
`some` of the default object argument `column.default.arg`). -/
structure Column where
  name : String
  python_type : String
  default : Option PyValue
deriving DecidableEq

/-- One field of the created pydantic model:
`fields[name] = (column.type.python_type, default)`. -/
structure ModelField where
  name : String
  py_type : String
  default : FieldDefault
deriving DecidableEq

/-- The pydantic model class built by
`create_model("ModelSerializer", **fields)`: its name and its fields in
dict insertion order. -/
structure Schema where
  model_name : String
  fields : List ModelField
deriving DecidableEq

/-- A SQLAlchemy mapping class: `__tablename__`, the ordered columns of
`metadata.tables[__tablename__]`, the keys of `cls.__dict__`, and the
`Serializer` attribute (set by `Serializer.add`, absent before). -/
structure MappingClass where
  tablename : String
  columns : List Column
  dict_keys : List String
  serializer : Option Schema := none
deriving DecidableEq

/-- `ALL = ("__all__",)` from the source. -/
def ALL : List String := ["__all__"]

/-- `EMPTY = tuple()` from the source. -/
def EMPTY : List String := []

/-- The `AttributeError`s raised by `_check_fields`, tagged by raise
site; `PyError.msg` recovers the exact message text of each. -/
inductive PyError where
  | attrBothFilled : PyError
  | attrCollision : String → PyError
  | attrMissingField : String → String → PyError
deriving DecidableEq

/-- The message strings of the three `raise AttributeError(f"...")`
sites, verbatim (including the missing space of the first, which the
source produces by adjacent f-string concatenation). -/
def PyError.msg : PyError → String
  | .attrBothFilled =>
      "both of parameters `include_fields` and `exclude_fields`"
        ++ "is filled, check only one or nothing"
  | .attrCollision attr =>
      "field `" ++ attr ++ "` set in include_fields and "
        ++ "exclude_fields in one time, check it"
  | .attrMissingField tablename attr =>
      "Table " ++ tablename ++ " doesn\x27t have field " ++ attr

/-- Decidable equality for `Except`, so that concrete runs of the
embedded methods can be checked by `decide`. -/
def decEqExcept {ε α : Type} [DecidableEq ε] [DecidableEq α] :
    DecidableEq (Except ε α)
  | .ok a, .ok b =>
    if h : a = b then .isTrue (by rw [h])
    else .isFalse (fun hc => h (Except.ok.inj hc))
  | .ok _, .error _ => .isFalse (fun hc => Except.noConfusion hc)
  | .error _, .ok _ => .isFalse (fun hc => Except.noConfusion hc)
  | .error e, .error f =>
    if h : e = f then .isTrue (by rw [h])
    else .isFalse (fun hc => h (Except.error.inj hc))

instance {ε α : Type} [DecidableEq ε] [DecidableEq α] :
    DecidableEq (Except ε α) := decEqExcept

/-- The `Serializer` class: its two constructor parameters with their
source defaults. -/
structure Serializer where
  include_fields : List String := ALL
  exclude_fields : List String := EMPTY
deriving DecidableEq

/-- The resolution of a column default in `_get_model`:
`if column.default is None: default = ... else: default = column.default.arg`. -/
def resolveDefault (column : Column) : FieldDefault :=
  match column.default with
  | none => .ellipsis
  | some arg => .value arg

/-- The field `_get_model` builds for an included column:
`fields[name] = (column.type.python_type, default)`. -/
def columnField (column : Column) : ModelField :=
  { name := column.name
    py_type := column.python_type
    default := resolveDefault column }

/-- Python dict assignment `fields[name] = value` on an ordered
association list: an existing key is updated in place, a new key is
appended. -/
def dictInsert (fields : List ModelField) (f : ModelField) : List ModelField :=
  if fields.any (fun g => g.name == f.name) then
    fields.map (fun g => if g.name == f.name then f else g)
  else
    fields ++ [f]

namespace Serializer

/-- The body of the `for attr in {...}` loop of `_check_fields` for one
attribute: the collision check, then `if attr in ALL: pass`, then the
existence check against `cls.__dict__.keys()`. -/
def checkAttr (s : Serializer) (cls : MappingClass) (attr : String) :
    Except PyError Unit :=
  if attr ∈ s.include_fields ∧ attr ∈ s.exclude_fields then
    .error (.attrCollision attr)
  else if attr ∈ ALL then
    .ok ()
  else if attr ∉ cls.dict_keys then
    .error (.attrMissingField cls.tablename attr)
  else
    .ok ()

/-- The `for attr in {...}` loop of `_check_fields`, raising at the
first failing attribute. -/
def checkAttrs (s : Serializer) (cls : MappingClass) :
    List String → Except PyError Unit
  | [] => .ok ()
  | attr :: rest =>
    match s.checkAttr cls attr with
    | .error e => .error e
    | .ok _ => s.checkAttrs cls rest

/-- `Serializer._check_fields`: the both-filled check, then the loop
over the set `{*self.include_fields, *self.exclude_fields}`. -/
def check_fields (s : Serializer) (cls : MappingClass) :
    Except PyError Unit :=
  if ¬ s.include_fields = ALL ∧ ¬ s.exclude_fields = EMPTY then
    .error .attrBothFilled
  else
    s.checkAttrs cls (s.include_fields ++ s.exclude_fields).dedup

/-- The inclusion condition of `_get_model` for one column name:
`any((include_fields == ALL and name not in exclude_fields,
exclude_fields == EMPTY and name in include_fields))`. -/
def includeColumn (s : Serializer) (name : String) : Bool :=
  (s.include_fields == ALL && !(s.exclude_fields.contains name)) ||
  (s.exclude_fields == EMPTY && s.include_fields.contains name)

/-- One iteration of the `for column in table.columns` loop of
`_get_model` on the `fields` dict. -/
def insertStep (s : Serializer) (fields : List ModelField)
    (column : Column) : List ModelField :=
  if s.includeColumn column.name then dictInsert fields (columnField column)
  else fields

/-- `Serializer._get_model`: iterate the table columns in order filling
the `fields` dict, then `create_model("ModelSerializer", **fields)`. -/
def get_model (s : Serializer) (cls : MappingClass) : Schema :=
  { model_name := "ModelSerializer"
    fields := cls.columns.foldl (s.insertStep) [] }

/-- `Serializer.from_orm`: `self._check_fields(cls)` then
`return self._get_model(cls)`. -/
def from_orm (s : Serializer) (cls : MappingClass) :
    Except PyError Schema :=
  match s.check_fields cls with
  | .error e => .error e
  | .ok _ => .ok (s.get_model cls)

/-- `Serializer.add`: `model_serializer = self.from_orm(cls)`,
`setattr(cls, "Serializer", model_serializer)`, `return cls`. -/
def add (s : Serializer) (cls : MappingClass) :
    Except PyError MappingClass :=
  match s.from_orm cls with
  | .error e => .error e
  | .ok model_serializer => .ok { cls with serializer := some model_serializer }

end Serializer

/-- The `User` mapping class of the specification scenarios: columns
`id : int` (no default) and `name : str` (default `"anon"`). -/
def userClass : MappingClass :=
  { tablename := "user"
    columns := [⟨"id", "int", none⟩, ⟨"name", "str", some (.strV "anon")⟩]
    dict_keys := ["id", "name"]
    serializer := none }

example :
    (Serializer.mk ALL EMPTY).from_orm userClass =
      .ok { model_name := "ModelSerializer"
            fields := [⟨"id", "int", .ellipsis⟩,
                       ⟨"name", "str", .value (.strV "anon")⟩] } := by
  decide

example :
    (Serializer.mk ["id"] EMPTY).from_orm userClass =
      .ok { model_name := "ModelSerializer"
            fields := [⟨"id", "int", .ellipsis⟩] } := by
  decide

example :
    (Serializer.mk ALL ["id"]).from_orm userClass =
      .ok { model_name := "ModelSerializer"
            fields := [⟨"name", "str", .value (.strV "anon")⟩] } := by
  decide

example :
    (Serializer.mk ["id"] ["name"]).from_orm userClass =
      .error .attrBothFilled := by
  decide

example :
    (Serializer.mk ["email"] EMPTY).from_orm userClass =
      .error (.attrMissingField "user" "email") := by
  decide

/-! ### Helper lemmas about the `fields` dict of `_get_model` -/

lemma dictInsert_eq_append (fields : List ModelField) (f : ModelField)
    (h : ∀ g ∈ fields, g.name ≠ f.name) :
    dictInsert fields f = fields ++ [f] := by
  have hany : (fields.any fun g => g.name == f.name) = false := by
    rw [List.any_eq_false]
    intro g hg
    simpa using h g hg
  simp [dictInsert, hany]

lemma foldl_insertStep (s : Serializer) (cols : List Column)
    (fields : List ModelField)
    (hdisj : ∀ g ∈ fields, ∀ c ∈ cols, g.name ≠ c.name)
    (hnd : (cols.map Column.name).Nodup) :
    cols.foldl (s.insertStep) fields
      = fields ++ (cols.filter fun c => s.includeColumn c.name).map columnField := by
  induction cols generalizing fields with
  | nil => simp
  | cons c cs ih =>
    rw [List.map_cons, List.nodup_cons] at hnd
    obtain ⟨hcname, hndtail⟩ := hnd
    rw [List.foldl_cons]
    by_cases hc : s.includeColumn c.name
    · rw [Serializer.insertStep, if_pos hc,
        dictInsert_eq_append fields (columnField c)
          (fun g hg => hdisj g hg c (List.mem_cons_self c cs))]
      rw [ih (fields ++ [columnField c])
        (by
          intro g hg d hd
          rcases List.mem_append.mp hg with hg | hg
          · exact hdisj g hg d (List.mem_cons_of_mem c hd)
          · rcases List.mem_singleton.mp hg with rfl
            intro hcontra
            apply hcname
            simp only [columnField] at hcontra
            rw [hcontra]
            exact List.mem_map_of_mem Column.name hd)
        hndtail]
      simp [List.filter_cons, hc]
    · rw [Serializer.insertStep, if_neg hc]
      rw [ih fields
        (fun g hg d hd => hdisj g hg d (List.mem_cons_of_mem c hd)) hndtail]
      simp [List.filter_cons, hc]

lemma get_model_fields_eq (s : Serializer) (cls : MappingClass)
    (hnd : (cls.columns.map Column.name).Nodup) :
    (s.get_model cls).fields
      = (cls.columns.filter fun c => s.includeColumn c.name).map columnField := by
  rw [Serializer.get_model]
  exact foldl_insertStep s cls.columns [] (by simp) hnd

lemma foldl_insertStep_of_none (s : Serializer) (cols : List Column)
    (fields : List ModelField)
    (h : ∀ c ∈ cols, s.includeColumn c.name = false) :
    cols.foldl (s.insertStep) fields = fields := by
  induction cols generalizing fields with
  | nil => simp
  | cons c cs ih =>
    rw [List.foldl_cons, Serializer.insertStep,
      if_neg (by simp [h c (List.mem_cons_self c cs)]),
      ih fields (fun d hd => h d (List.mem_cons_of_mem c hd))]

/-! ### Helper lemmas about `_check_fields` -/

lemma check_fields_eq_checkAttrs (s : Serializer) (cls : MappingClass)
    (h : s.include_fields = ALL ∨ s.exclude_fields = EMPTY) :
    s.check_fields cls
      = s.checkAttrs cls (s.include_fields ++ s.exclude_fields).dedup := by
  rw [Serializer.check_fields, if_neg]
  rcases h with h | h <;> simp [h]

lemma checkAttr_eq_ok_of_all (s : Serializer) (cls : MappingClass)
    (attr : String)
    (hnc : ¬(attr ∈ s.include_fields ∧ attr ∈ s.exclude_fields))
    (hall : attr ∈ ALL) :
    s.checkAttr cls attr = .ok () := by
  rw [Serializer.checkAttr, if_neg hnc, if_pos hall]

lemma checkAttr_eq_ok_of_mem (s : Serializer) (cls : MappingClass)
    (attr : String)
    (hnc : ¬(attr ∈ s.include_fields ∧ attr ∈ s.exclude_fields))
    (hdict : attr ∈ cls.dict_keys) :
    s.checkAttr cls attr = .ok () := by
  rw [Serializer.checkAttr, if_neg hnc]
  by_cases hall : attr ∈ ALL
  · rw [if_pos hall]
  · rw [if_neg hall, if_neg (by simpa using hdict)]

lemma checkAttr_eq_missing (s : Serializer) (cls : MappingClass)
    (attr : String)
    (hnc : ¬(attr ∈ s.include_fields ∧ attr ∈ s.exclude_fields))
    (hall : attr ∉ ALL) (hdict : attr ∉ cls.dict_keys) :
    s.checkAttr cls attr = .error (.attrMissingField cls.tablename attr) := by
  rw [Serializer.checkAttr, if_neg hnc, if_neg hall, if_pos hdict]

lemma checkAttr_error_cases (s : Serializer) (cls : MappingClass)
    (attr : String) (e : PyError)
    (h : s.checkAttr cls attr = .error e) :
    (e = .attrCollision attr ∧ attr ∈ s.include_fields ∧ attr ∈ s.exclude_fields)
      ∨ e = .attrMissingField cls.tablename attr := by
  rw [Serializer.checkAttr] at h
  split at h
  · rename_i hc
    exact Or.inl ⟨(Except.error.inj h).symm, hc⟩
  · split at h
    · exact absurd h (by simp)
    · split at h
      · exact Or.inr (Except.error.inj h).symm
      · exact absurd h (by simp)

lemma checkAttrs_error_cases (s : Serializer) (cls : MappingClass)
    (L : List String) (e : PyError)
    (h : s.checkAttrs cls L = .error e) :
    (∃ a ∈ L, e = .attrCollision a ∧ a ∈ s.include_fields ∧ a ∈ s.exclude_fields)
      ∨ (∃ a ∈ L, e = .attrMissingField cls.tablename a) := by
  induction L with
  | nil => exact absurd h (by simp [Serializer.checkAttrs])
  | cons a t ih =>
    rw [Serializer.checkAttrs] at h
    rcases hcall : s.checkAttr cls a with e0 | u
    · rw [hcall] at h
      rcases checkAttr_error_cases s cls a e0 hcall with ⟨he, hmem⟩ | he
      · exact Or.inl ⟨a, List.mem_cons_self a t,
          (Except.error.inj h).symm.trans he, hmem⟩
      · exact Or.inr ⟨a, List.mem_cons_self a t,
          (Except.error.inj h).symm.trans he⟩
    · rw [hcall] at h
      rcases ih h with ⟨b, hb, hrest⟩ | ⟨b, hb, hrest⟩
      · exact Or.inl ⟨b, List.mem_cons_of_mem a hb, hrest⟩
      · exact Or.inr ⟨b, List.mem_cons_of_mem a hb, hrest⟩

lemma checkAttrs_missing (s : Serializer) (cls : MappingClass)
    (L : List String) (n : String)
    (hnocol : ∀ a ∈ L, ¬(a ∈ s.include_fields ∧ a ∈ s.exclude_fields))
    (hn : n ∈ L) (hnall : n ∉ ALL) (hmiss : n ∉ cls.dict_keys)
    (huniq : ∀ k ∈ L, k ∉ ALL → k ∉ cls.dict_keys → k = n) :
    s.checkAttrs cls L = .error (.attrMissingField cls.tablename n) := by
  induction L with
  | nil => exact absurd hn (List.not_mem_nil n)
  | cons a t ih =>
    have hnca := hnocol a (List.mem_cons_self a t)
    by_cases hall : a ∈ ALL
    · rw [Serializer.checkAttrs, checkAttr_eq_ok_of_all s cls a hnca hall]
      have hna : n ≠ a := fun hcontra => hnall (hcontra ▸ hall)
      exact ih (fun k hk => hnocol k (List.mem_cons_of_mem a hk))
        ((List.mem_cons.mp hn).resolve_left hna)
        (fun k hk hk1 hk2 =>
          huniq k (List.mem_cons_of_mem a hk) hk1 hk2)
    · by_cases hdict : a ∈ cls.dict_keys
      · rw [Serializer.checkAttrs, checkAttr_eq_ok_of_mem s cls a hnca hdict]
        have hna : n ≠ a := fun hcontra => hmiss (hcontra ▸ hdict)
        exact ih (fun k hk => hnocol k (List.mem_cons_of_mem a hk))
          ((List.mem_cons.mp hn).resolve_left hna)
          (fun k hk hk1 hk2 =>
            huniq k (List.mem_cons_of_mem a hk) hk1 hk2)
      · have ha : a = n := huniq a (List.mem_cons_self a t) hall hdict
        rw [Serializer.checkAttrs,
          checkAttr_eq_missing s cls a hnca hall hdict, ha]

lemma checkAttrs_ok (s : Serializer) (cls : MappingClass)
    (L : List String)
    (hok : ∀ a ∈ L, s.checkAttr cls a = .ok ()) :
    s.checkAttrs cls L = .ok () := by
  induction L with
  | nil => rfl
  | cons a t ih =>
    rw [Serializer.checkAttrs, hok a (List.mem_cons_self a t)]
    exact ih (fun k hk => hok k (List.mem_cons_of_mem a hk))

/-! ### The claims -/

/-- C1: for every mapping class (column names being distinct, as they
are within a SQLAlchemy table) and every selector configuration that
passes `_check_fields`, the schema built by `_get_model` has exactly
one field per column satisfying the inclusion condition, in table
column order; in particular, under the default configuration
(include = ALL, exclude = EMPTY) it has exactly one field per column of
the table, in column order. -/
theorem get_model_fields_filter (s : Serializer) (cls : MappingClass)
    (hnd : (cls.columns.map Column.name).Nodup)
    (_hok : s.check_fields cls = .ok ()) :
    (s.get_model cls).fields
        = (cls.columns.filter fun c => s.includeColumn c.name).map columnField
      ∧ (s.include_fields = ALL → s.exclude_fields = EMPTY →
          (s.get_model cls).fields = cls.columns.map columnField) := by
  refine ⟨get_model_fields_eq s cls hnd, fun hinc hexc => ?_⟩
  rw [get_model_fields_eq s cls hnd]
  have hall : ∀ c ∈ cls.columns, s.includeColumn c.name = true := by
    intro c _
    simp [Serializer.includeColumn, hinc, hexc, EMPTY]
  rw [List.filter_eq_self.mpr hall]

/-- Witness for C1: the default configuration on the User scenario
class. -/
theorem get_model_fields_filter_witness :
    ((Serializer.mk ALL EMPTY).get_model userClass).fields
        = (userClass.columns.filter fun c =>
            (Serializer.mk ALL EMPTY).includeColumn c.name).map columnField
      ∧ ((Serializer.mk ALL EMPTY).include_fields = ALL →
          (Serializer.mk ALL EMPTY).exclude_fields = EMPTY →
          ((Serializer.mk ALL EMPTY).get_model userClass).fields
            = userClass.columns.map columnField) :=
  get_model_fields_filter (Serializer.mk ALL EMPTY) userClass
    (by decide) (by decide)

/-- C2: for every included column, the field built by `_get_model` has
the column name, the column native value type, and as default the
required marker (Ellipsis) when the column declares no default,
otherwise the default argument value. -/
theorem get_model_field_content (s : Serializer) (cls : MappingClass)
    (c : Column)
    (hnd : (cls.columns.map Column.name).Nodup)
    (hc : c ∈ cls.columns)
    (hinc : s.includeColumn c.name = true) :
    ({ name := c.name
       py_type := c.python_type
       default :=
         match c.default with
         | none => FieldDefault.ellipsis
         | some arg => FieldDefault.value arg } : ModelField)
      ∈ (s.get_model cls).fields := by
  have heq : ({ name := c.name
                py_type := c.python_type
                default :=
                  match c.default with
                  | none => FieldDefault.ellipsis
                  | some arg => FieldDefault.value arg } : ModelField)
      = columnField c := rfl
  rw [heq, get_model_fields_eq s cls hnd]
  exact List.mem_map_of_mem columnField (List.mem_filter.mpr ⟨hc, hinc⟩)

/-- Witness for C2: the `name` column of the User scenario class under
the default configuration. -/
theorem get_model_field_content_witness :
    ({ name := "name", py_type := "str",
       default := FieldDefault.value (PyValue.strV "anon") } : ModelField)
      ∈ ((Serializer.mk ALL EMPTY).get_model userClass).fields :=
  get_model_field_content (Serializer.mk ALL EMPTY) userClass
    ⟨"name", "str", some (.strV "anon")⟩ (by decide) (by decide) (by decide)

/-- C3: whenever `include_fields` is not the ALL sentinel and
`exclude_fields` is not EMPTY, `_check_fields` — and hence `from_orm` —
fails with the both-filled AttributeError, for every mapping class. -/
theorem check_fields_both_filled (s : Serializer) (cls : MappingClass)
    (hinc : ¬ s.include_fields = ALL) (hexc : ¬ s.exclude_fields = EMPTY) :
    s.check_fields cls = .error .attrBothFilled
      ∧ s.from_orm cls = .error .attrBothFilled := by
  have h : s.check_fields cls = .error .attrBothFilled := by
    rw [Serializer.check_fields, if_pos ⟨hinc, hexc⟩]
  exact ⟨h, by simp only [Serializer.from_orm, h]⟩

/-- Witness for C3: include {id} together with exclude {name}. -/
theorem check_fields_both_filled_witness :
    (Serializer.mk ["id"] ["name"]).check_fields userClass
        = .error .attrBothFilled
      ∧ (Serializer.mk ["id"] ["name"]).from_orm userClass
        = .error .attrBothFilled :=
  check_fields_both_filled (Serializer.mk ["id"] ["name"]) userClass
    (by decide) (by decide)

/-- C4: when the both-filled check and the collision check pass, a
selector name that is not the sentinel string and is not among the
declared attribute names of the mapping class makes `_check_fields` —
and hence `from_orm` — fail with the AttributeError referencing that
name; the uniqueness hypothesis pins down which name is reported, since
the source iterates a Python set whose order is unspecified. -/
theorem check_fields_missing_field (s : Serializer) (cls : MappingClass)
    (n : String)
    (hsel : s.include_fields = ALL ∨ s.exclude_fields = EMPTY)
    (hnocol : ∀ a, ¬(a ∈ s.include_fields ∧ a ∈ s.exclude_fields))
    (hmem : n ∈ s.include_fields ∨ n ∈ s.exclude_fields)
    (hnall : n ≠ "__all__")
    (hmiss : n ∉ cls.dict_keys)
    (huniq : ∀ k, (k ∈ s.include_fields ∨ k ∈ s.exclude_fields) →
      k ≠ "__all__" → k ∉ cls.dict_keys → k = n) :
    s.check_fields cls = .error (.attrMissingField cls.tablename n)
      ∧ s.from_orm cls = .error (.attrMissingField cls.tablename n)
      ∧ (PyError.attrMissingField cls.tablename n).msg
          = "Table " ++ cls.tablename ++ " doesn\x27t have field " ++ n := by
  have hmain : s.check_fields cls
      = .error (.attrMissingField cls.tablename n) := by
    rw [check_fields_eq_checkAttrs s cls hsel]
    apply checkAttrs_missing
    · intro a _
      exact hnocol a
    · rw [List.mem_dedup, List.mem_append]
      exact hmem
    · simpa [ALL] using hnall
    · exact hmiss
    · intro k hk hk1 hk2
      rw [List.mem_dedup, List.mem_append] at hk
      exact huniq k hk (by simpa [ALL] using hk1) hk2
  exact ⟨hmain, by simp only [Serializer.from_orm, hmain], rfl⟩

/-- Witness for C4: include {email} on the User scenario class, which
has no email attribute. -/
theorem check_fields_missing_field_witness :
    (Serializer.mk ["email"] []).check_fields userClass
        = .error (.attrMissingField "user" "email")
      ∧ (Serializer.mk ["email"] []).from_orm userClass
        = .error (.attrMissingField "user" "email")
      ∧ (PyError.attrMissingField "user" "email").msg
          = "Table " ++ "user" ++ " doesn\x27t have field " ++ "email" :=
  check_fields_missing_field (Serializer.mk ["email"] []) userClass "email"
    (Or.inr rfl)
    (by simp)
    (Or.inl (by decide))
    (by decide)
    (by decide)
    (fun k hk _ _ => by
      rcases hk with hk | hk
      · exact List.mem_singleton.mp hk
      · exact absurd hk (List.not_mem_nil k))

/-- C5: on every mapping class on which `from_orm` succeeds, `add`
returns the class it was given with the `Serializer` attribute set to
the schema `from_orm` returns, every other part unchanged. -/
theorem add_sets_serializer (s : Serializer) (cls : MappingClass)
    (m : Schema) (h : s.from_orm cls = .ok m) :
    s.add cls = .ok { tablename := cls.tablename
                      columns := cls.columns
                      dict_keys := cls.dict_keys
                      serializer := some m } := by
  have hres : s.add cls = .ok { cls with serializer := some m } := by
    simp only [Serializer.add, h]
  exact hres

/-- Witness for C5: the default configuration on the User scenario
class. -/
theorem add_sets_serializer_witness :
    (Serializer.mk ALL EMPTY).add userClass =
      .ok { tablename := "user"
            columns := [⟨"id", "int", none⟩,
                        ⟨"name", "str", some (.strV "anon")⟩]
            dict_keys := ["id", "name"]
            serializer := some
              { model_name := "ModelSerializer"
                fields := [⟨"id", "int", .ellipsis⟩,
                           ⟨"name", "str", .value (.strV "anon")⟩] } } :=
  add_sets_serializer (Serializer.mk ALL EMPTY) userClass _ (by decide)

/-- C6: every AttributeError of `from_orm` comes from `_check_fields`
and is one of exactly three conditions; when `_check_fields` passes,
`from_orm` returns the schema of `_get_model`, which itself never
fails; and a configuration violating the both-filled check, passed
directly to `_get_model`, silently produces an empty schema. -/
theorem error_conditions_exact (s : Serializer) (cls : MappingClass) :
    (∀ e, s.from_orm cls = .error e ↔ s.check_fields cls = .error e)
      ∧ (∀ u, s.check_fields cls = .ok u →
          s.from_orm cls = .ok (s.get_model cls))
      ∧ (∀ e, s.check_fields cls = .error e →
          (e = .attrBothFilled
              ∧ ¬ s.include_fields = ALL ∧ ¬ s.exclude_fields = EMPTY)
            ∨ (∃ a, e = .attrCollision a)
            ∨ (∃ a, e = .attrMissingField cls.tablename a))
      ∧ (¬ s.include_fields = ALL → ¬ s.exclude_fields = EMPTY →
          (s.get_model cls).fields = []) := by
  refine ⟨?_, ?_, ?_, ?_⟩
  · intro e
    constructor
    · intro h
      rcases hc : s.check_fields cls with e0 | u
      · simp only [Serializer.from_orm, hc] at h
        obtain rfl : e0 = e := Except.error.inj h
        rfl
      · simp only [Serializer.from_orm, hc] at h
        exact absurd h (by simp)
    · intro h
      simp only [Serializer.from_orm, h]
  · intro u h
    simp only [Serializer.from_orm, h]
  · intro e h
    by_cases hb : ¬ s.include_fields = ALL ∧ ¬ s.exclude_fields = EMPTY
    · rw [Serializer.check_fields, if_pos hb] at h
      exact Or.inl ⟨(Except.error.inj h).symm, hb⟩
    · rw [Serializer.check_fields, if_neg hb] at h
      rcases checkAttrs_error_cases s cls _ e h with ⟨a, _, he, _⟩ | ⟨a, _, he⟩
      · exact Or.inr (Or.inl ⟨a, he⟩)
      · exact Or.inr (Or.inr ⟨a, he⟩)
  · intro hinc hexc
    have h1 : (s.include_fields == ALL) = false :=
      beq_eq_false_iff_ne.mpr hinc
    have h2 : (s.exclude_fields == EMPTY) = false :=
      beq_eq_false_iff_ne.mpr hexc
    have hnone : ∀ c ∈ cls.columns, s.includeColumn c.name = false := by
      intro c _
      simp [Serializer.includeColumn, h1, h2]
    simpa [Serializer.get_model]
      using foldl_insertStep_of_none s cls.columns [] hnone

/-- C7: `from_orm` is deterministic — two runs on the same
configuration and mapping class yield schemas with identical field
names, field types and field defaults. -/
theorem from_orm_deterministic (s : Serializer) (cls : MappingClass)
    (m1 m2 : Schema)
    (h1 : s.from_orm cls = .ok m1) (h2 : s.from_orm cls = .ok m2) :
    m1.fields.map ModelField.name = m2.fields.map ModelField.name
      ∧ m1.fields.map ModelField.py_type = m2.fields.map ModelField.py_type
      ∧ m1.fields.map ModelField.default = m2.fields.map ModelField.default := by
  cases Except.ok.inj (h1.symm.trans h2)
  exact ⟨rfl, rfl, rfl⟩

/-- Witness for C7: the default configuration on the User scenario
class. -/
theorem from_orm_deterministic_witness :
    ({ model_name := "ModelSerializer"
       fields := [⟨"id", "int", .ellipsis⟩,
                  ⟨"name", "str", .value (.strV "anon")⟩] } : Schema).fields.map
          ModelField.name
        = ({ model_name := "ModelSerializer"
             fields := [⟨"id", "int", .ellipsis⟩,
                        ⟨"name", "str", .value (.strV "anon")⟩] } : Schema).fields.map
            ModelField.name
      ∧ ({ model_name := "ModelSerializer"
           fields := [⟨"id", "int", .ellipsis⟩,
                      ⟨"name", "str", .value (.strV "anon")⟩] } : Schema).fields.map
            ModelField.py_type
          = ({ model_name := "ModelSerializer"
               fields := [⟨"id", "int", .ellipsis⟩,
                          ⟨"name", "str", .value (.strV "anon")⟩] } : Schema).fields.map
              ModelField.py_type
      ∧ ({ model_name := "ModelSerializer"
           fields := [⟨"id", "int", .ellipsis⟩,
                      ⟨"name", "str", .value (.strV "anon")⟩] } : Schema).fields.map
            ModelField.default
          = ({ model_name := "ModelSerializer"
               fields := [⟨"id", "int", .ellipsis⟩,
                          ⟨"name", "str", .value (.strV "anon")⟩] } : Schema).fields.map
              ModelField.default :=
  from_orm_deterministic (Serializer.mk ALL EMPTY) userClass _ _
    (by decide) (by decide)

/-- C8: the collision check of `_check_fields` produces its
AttributeError for a name only when `include_fields` is the ALL
sentinel and that name is the literal string of the sentinel contents,
sitting in `exclude_fields`; with sentinel-free explicit sets it never
fires. -/
theorem collision_only_with_sentinel (s : Serializer) (cls : MappingClass)
    (a : String)
    (h : s.check_fields cls = .error (.attrCollision a)) :
    s.include_fields = ALL ∧ a = "__all__"
      ∧ a ∈ s.exclude_fields ∧ ¬ s.exclude_fields = EMPTY := by
  by_cases hb : ¬ s.include_fields = ALL ∧ ¬ s.exclude_fields = EMPTY
  · rw [Serializer.check_fields, if_pos hb] at h
    exact absurd (Except.error.inj h) (by simp)
  · rw [Serializer.check_fields, if_neg hb] at h
    rcases checkAttrs_error_cases s cls _ _ h with ⟨b, _, he, hbi, hbe⟩ | ⟨b, _, he⟩
    · obtain rfl : a = b := PyError.attrCollision.inj he
      have hexc : ¬ s.exclude_fields = EMPTY := by
        intro hE
        rw [hE] at hbe
        exact absurd hbe (by simp [EMPTY])
      have hinc : s.include_fields = ALL := by
        by_cases h1 : s.include_fields = ALL
        · exact h1
        · exact absurd ⟨h1, hexc⟩ hb
      refine ⟨hinc, ?_, hbe, hexc⟩
      rw [hinc] at hbi
      simpa [ALL] using hbi
    · exact absurd he (by simp)

/-- Witness for C8: the default include sentinel together with an
exclude set that contains the literal sentinel string. -/
theorem collision_only_with_sentinel_witness :
    (Serializer.mk ALL ["__all__"]).include_fields = ALL
      ∧ "__all__" = "__all__"
      ∧ "__all__" ∈ (Serializer.mk ALL ["__all__"]).exclude_fields
      ∧ ¬ (Serializer.mk ALL ["__all__"]).exclude_fields = EMPTY :=
  collision_only_with_sentinel (Serializer.mk ALL ["__all__"]) userClass
    "__all__" (by decide)

/-- C9: `add` is atomic on error — whenever `from_orm` fails, `add`
fails with the same error; no updated class is produced, so no
`Serializer` attribute is set. -/
theorem add_error_propagates (s : Serializer) (cls : MappingClass)
    (e : PyError) (h : s.from_orm cls = .error e) :
    s.add cls = .error e := by
  simp only [Serializer.add, h]

/-- Witness for C9: include {id} together with exclude {name}. -/
theorem add_error_propagates_witness :
    (Serializer.mk ["id"] ["name"]).add userClass
      = .error .attrBothFilled :=
  add_error_propagates (Serializer.mk ["id"] ["name"]) userClass
    .attrBothFilled (by decide)

/-- C10: an explicit selector name literally equal to the sentinel
string passes `_check_fields` without error on every mapping class,
even one that declares no attribute of that name — the `attr in ALL`
branch exempts it from the existence check. -/
theorem sentinel_name_exempt (cls : MappingClass)
    (_h : "__all__" ∉ cls.dict_keys) :
    (Serializer.mk ["__all__"] []).check_fields cls = .ok () := by
  rw [check_fields_eq_checkAttrs _ cls (Or.inl rfl)]
  apply checkAttrs_ok
  intro a ha
  rw [List.mem_dedup] at ha
  obtain rfl : a = "__all__" := by simpa using ha
  apply checkAttr_eq_ok_of_all
  · simp
  · simp [ALL]

/-- Witness for C10: the User scenario class, which declares no
attribute named after the sentinel string. -/
theorem sentinel_name_exempt_witness :
    (Serializer.mk ["__all__"] []).check_fields userClass = .ok () :=
  sentinel_name_exempt userClass (by decide)

end PydanticSerializers
